import Mathlib

/-!
Verification of the rss-printer script (`src/rss_to_printer.py`) via a shallow
embedding in Lean 4.  Pure computations (entry normalization, item-list
construction, banner prepending) are translated directly from the Python
source; effectful collaborators (feedparser, the reportlab build step, the
`lpr` subprocess, file deletion) are modelled by outcome parameters describing
every result the collaborator can produce, with the script's `try`/`except`
handling translated faithfully.  The fitting behaviour of reportlab's
`KeepInFrame(mode='truncate')` is not part of this repository; it is modelled
from the specification and marked as such.
-/

/- ## HTML escaping (`html.escape`, used at rss_to_printer.py lines 68-69) -/

/-- The double-quote character, written via its code point. -/
def quoteChar : Char := Char.ofNat 34

/-- The apostrophe character, written via its code point. -/
def aposChar : Char := Char.ofNat 39

/-- Per-character translation of Python's `html.escape(s)` (default
`quote=True`): `&` → `&amp;`, `<` → `&lt;`, `>` → `&gt;`, `"` → `&quot;`,
apostrophe → `&#x27;`.  Python performs sequential `str.replace` calls starting
with `&`, which is equivalent to this single per-character map because the
replacement texts contain no character that a later replace rewrites. -/
def htmlEscapeChar (c : Char) : List Char :=
  if c = '&' then ['&', 'a', 'm', 'p', ';']
  else if c = '<' then ['&', 'l', 't', ';']
  else if c = '>' then ['&', 'g', 't', ';']
  else if c = quoteChar then ['&', 'q', 'u', 'o', 't', ';']
  else if c = aposChar then ['&', '#', 'x', '2', '7', ';']
  else [c]

/-- `html.escape` with its default arguments, as called by `format_entries`. -/
def htmlEscape (s : String) : String :=
  String.mk (s.data.flatMap htmlEscapeChar)

/-- A markup-significant character: one of `&`, `<`, `>`, `"`, apostrophe. -/
def isMarkupSignificant (c : Char) : Bool :=
  c = '&' || c = '<' || c = '>' || c = quoteChar || c = aposChar

/-- Scans a character list and decides that it contains no unescaped
markup-significant character: every `&` must begin one of the five entities
produced by `html.escape`, and no other markup-significant character may
appear at all. -/
def noUnescapedMarkupAux : Nat → List Char → Bool
  | _, [] => true
  | 0, _ :: _ => false
  | fuel + 1, c :: rest =>
    if c = '&' then
      if rest.take 4 = ['a', 'm', 'p', ';'] then noUnescapedMarkupAux fuel (rest.drop 4)
      else if rest.take 3 = ['l', 't', ';'] then noUnescapedMarkupAux fuel (rest.drop 3)
      else if rest.take 3 = ['g', 't', ';'] then noUnescapedMarkupAux fuel (rest.drop 3)
      else if rest.take 5 = ['q', 'u', 'o', 't', ';'] then
        noUnescapedMarkupAux fuel (rest.drop 5)
      else if rest.take 5 = ['#', 'x', '2', '7', ';'] then
        noUnescapedMarkupAux fuel (rest.drop 5)
      else false
    else if isMarkupSignificant c then false
    else noUnescapedMarkupAux fuel rest

/-- `noUnescapedMarkupAux` with fuel equal to the list length; since every
step consumes at least one character and one fuel unit, the fuel never runs
out (`noUnescapedMarkupAux_fuel`). -/
def noUnescapedMarkup (l : List Char) : Bool :=
  noUnescapedMarkupAux l.length l

theorem noUnescapedMarkupAux_fuel (fuel : Nat) :
    ∀ l : List Char, l.length ≤ fuel → ∀ fuel2 : Nat, l.length ≤ fuel2 →
      noUnescapedMarkupAux fuel l = noUnescapedMarkupAux fuel2 l := by
  induction fuel with
  | zero =>
    intro l hl fuel2 h2
    have hnil : l = [] := by
      cases l with
      | nil => rfl
      | cons c rest => simp at hl
    subst hnil
    cases fuel2 with
    | zero => rfl
    | succ f2 => rfl
  | succ f ih =>
    intro l hl fuel2 h2
    cases l with
    | nil =>
      cases fuel2 with
      | zero => rfl
      | succ f2 => rfl
    | cons c rest =>
      cases fuel2 with
      | zero => simp at h2
      | succ f2 =>
        have hr : rest.length ≤ f := by simp at hl; omega
        have hr2 : rest.length ≤ f2 := by simp at h2; omega
        show noUnescapedMarkupAux (f + 1) (c :: rest)
            = noUnescapedMarkupAux (f2 + 1) (c :: rest)
        simp only [noUnescapedMarkupAux]
        split_ifs <;>
          first
          | rfl
          | (apply ih <;> (try simp only [List.length_drop]) <;> omega)

theorem aux_amp_step (f : Nat) (l : List Char) :
    noUnescapedMarkupAux (f + 1) ('&' :: 'a' :: 'm' :: 'p' :: ';' :: l)
      = noUnescapedMarkupAux f l := rfl

theorem aux_lt_step (f : Nat) (l : List Char) :
    noUnescapedMarkupAux (f + 1) ('&' :: 'l' :: 't' :: ';' :: l)
      = noUnescapedMarkupAux f l := rfl

theorem aux_gt_step (f : Nat) (l : List Char) :
    noUnescapedMarkupAux (f + 1) ('&' :: 'g' :: 't' :: ';' :: l)
      = noUnescapedMarkupAux f l := rfl

theorem aux_quot_step (f : Nat) (l : List Char) :
    noUnescapedMarkupAux (f + 1) ('&' :: 'q' :: 'u' :: 'o' :: 't' :: ';' :: l)
      = noUnescapedMarkupAux f l := rfl

theorem aux_apos_step (f : Nat) (l : List Char) :
    noUnescapedMarkupAux (f + 1) ('&' :: '#' :: 'x' :: '2' :: '7' :: ';' :: l)
      = noUnescapedMarkupAux f l := rfl

theorem aux_plain_step (f : Nat) (c : Char) (l : List Char)
    (h1 : ¬ c = '&') (hsig : isMarkupSignificant c = false) :
    noUnescapedMarkupAux (f + 1) (c :: l) = noUnescapedMarkupAux f l := by
  show noUnescapedMarkupAux (f + 1) (c :: l) = noUnescapedMarkupAux f l
  simp only [noUnescapedMarkupAux]
  rw [if_neg h1, hsig]
  simp

theorem noUnescapedMarkup_escapeChar_append (c : Char) (l : List Char) :
    noUnescapedMarkup (htmlEscapeChar c ++ l) = noUnescapedMarkup l := by
  by_cases h1 : c = '&'
  · subst h1
    show noUnescapedMarkupAux ('&' :: 'a' :: 'm' :: 'p' :: ';' :: l).length
        ('&' :: 'a' :: 'm' :: 'p' :: ';' :: l) = noUnescapedMarkupAux l.length l
    have hlen : ('&' :: 'a' :: 'm' :: 'p' :: ';' :: l).length = (l.length + 4) + 1 := by
      simp only [List.length_cons]
    rw [hlen, aux_amp_step]
    exact noUnescapedMarkupAux_fuel (l.length + 4) l (by omega) l.length (le_refl _)
  by_cases h2 : c = '<'
  · subst h2
    show noUnescapedMarkupAux ('&' :: 'l' :: 't' :: ';' :: l).length
        ('&' :: 'l' :: 't' :: ';' :: l) = noUnescapedMarkupAux l.length l
    have hlen : ('&' :: 'l' :: 't' :: ';' :: l).length = (l.length + 3) + 1 := by
      simp only [List.length_cons]
    rw [hlen, aux_lt_step]
    exact noUnescapedMarkupAux_fuel (l.length + 3) l (by omega) l.length (le_refl _)
  by_cases h3 : c = '>'
  · subst h3
    show noUnescapedMarkupAux ('&' :: 'g' :: 't' :: ';' :: l).length
        ('&' :: 'g' :: 't' :: ';' :: l) = noUnescapedMarkupAux l.length l
    have hlen : ('&' :: 'g' :: 't' :: ';' :: l).length = (l.length + 3) + 1 := by
      simp only [List.length_cons]
    rw [hlen, aux_gt_step]
    exact noUnescapedMarkupAux_fuel (l.length + 3) l (by omega) l.length (le_refl _)
  by_cases h4 : c = quoteChar
  · subst h4
    show noUnescapedMarkupAux ('&' :: 'q' :: 'u' :: 'o' :: 't' :: ';' :: l).length
        ('&' :: 'q' :: 'u' :: 'o' :: 't' :: ';' :: l) = noUnescapedMarkupAux l.length l
    have hlen : ('&' :: 'q' :: 'u' :: 'o' :: 't' :: ';' :: l).length
        = (l.length + 5) + 1 := by
      simp only [List.length_cons]
    rw [hlen, aux_quot_step]
    exact noUnescapedMarkupAux_fuel (l.length + 5) l (by omega) l.length (le_refl _)
  by_cases h5 : c = aposChar
  · subst h5
    show noUnescapedMarkupAux ('&' :: '#' :: 'x' :: '2' :: '7' :: ';' :: l).length
        ('&' :: '#' :: 'x' :: '2' :: '7' :: ';' :: l) = noUnescapedMarkupAux l.length l
    have hlen : ('&' :: '#' :: 'x' :: '2' :: '7' :: ';' :: l).length
        = (l.length + 5) + 1 := by
      simp only [List.length_cons]
    rw [hlen, aux_apos_step]
    exact noUnescapedMarkupAux_fuel (l.length + 5) l (by omega) l.length (le_refl _)
  have hesc : htmlEscapeChar c = [c] := by
    simp [htmlEscapeChar, h1, h2, h3, h4, h5]
  have hsig : isMarkupSignificant c = false := by
    simp [isMarkupSignificant, h1, h2, h3, h4, h5]
  rw [hesc]
  show noUnescapedMarkupAux (c :: l).length (c :: l) = noUnescapedMarkupAux l.length l
  have hlen : (c :: l).length = l.length + 1 := by simp only [List.length_cons]
  rw [hlen, aux_plain_step l.length c l h1 hsig]

theorem noUnescapedMarkup_flatMap (l : List Char) :
    noUnescapedMarkup (l.flatMap htmlEscapeChar) = true := by
  induction l with
  | nil => rfl
  | cons c rest ih =>
    rw [List.flatMap_cons, noUnescapedMarkup_escapeChar_append, ih]

/-- Escaped strings contain no unescaped markup-significant characters. -/
theorem htmlEscape_noUnescapedMarkup (s : String) :
    noUnescapedMarkup (htmlEscape s).data = true := by
  show noUnescapedMarkup (s.data.flatMap htmlEscapeChar) = true
  exact noUnescapedMarkup_flatMap s.data

/- ## Raw feed data and `format_entries` (lines 57-72) -/

/-- A raw feed entry as exposed by feedparser: the `title`, `published` and
`summary` fields are each optional in the source feed; `entry.get(k, d)`
supplies the default when the field is absent. -/
structure RawEntry where
  title : Option String
  published : Option String
  summary : Option String
deriving DecidableEq

/-- The parsed-feed object returned by `feedparser.parse`: the `bozo` error
flag with its accompanying exception text, and the entry collection
(`hasEntries` models the `'entries' not in feed` membership test). -/
structure Feed where
  bozo : Bool
  bozoException : String
  hasEntries : Bool
  entries : List RawEntry
deriving DecidableEq

/-- A normalized entry dict as built by `format_entries` (lines 67-71). -/
structure NormalizedEntry where
  title : String
  published : String
  summary : String
deriving DecidableEq

/-- The per-entry body of the loop in `format_entries` (lines 63-71):
escape `title` and `published`, leave `summary` as-is. -/
def normalizeRaw (e : RawEntry) : NormalizedEntry :=
  { title := htmlEscape (e.title.getD ("No title"))
    published := htmlEscape (e.published.getD ("No date"))
    summary := e.summary.getD ("") }

/-- `format_entries(feed)` (lines 57-72): `[]` when `feed` is `None` or has no
`entries` key, otherwise the normalized entries in feed order. -/
def format_entries (feed : Option Feed) : List NormalizedEntry :=
  match feed with
  | none => []
  | some f => if f.hasEntries then f.entries.map normalizeRaw else []

/- ## `fetch_feed` (lines 46-55) -/

/-- Every outcome of the `feedparser.parse(url)` call inside the `try` block:
either the call raised an exception or it returned a `Feed` object. -/
inductive ParseOutcome where
  | raised (msg : String)
  | parsed (f : Feed)
deriving DecidableEq

/-- An outcome in which the fetch/parse step failed: the parser raised, or it
set the `bozo` error flag. -/
def isFetchError : ParseOutcome → Bool
  | .raised _ => true
  | .parsed f => f.bozo

/-- `fetch_feed(url)` (lines 46-55): result value together with the stderr
diagnostics it prints.  The `except` branch turns a raised exception into
`None` plus a diagnostic; a `bozo` feed also yields `None` plus a
diagnostic. -/
def fetch_feed (o : ParseOutcome) : Option Feed × List String :=
  match o with
  | .raised m => (none, [("Exception fetching feed: ") ++ m])
  | .parsed f =>
    if f.bozo then (none, [("Error parsing feed: ") ++ f.bozoException])
    else (some f, [])

/- ## Configuration constants (lines 32-44) -/

/-- `FEED_SOURCES`: the static (name, url) registry. -/
def FEED_SOURCES : List (String × String) :=
  [("CNN Top Stories", "http://rss.cnn.com/rss/cnn_topstories.rss"),
   ("Guardian World", "https://www.theguardian.com/world/rss"),
   ("NOAA Climate Highlights", "https://www.climate.gov/feeds/news-features/highlights.rss"),
   ("Civil Georgia", "https://civil.ge/feed"),
   ("Fox News World", "https://moxie.foxnews.com/google-publisher/world.xml"),
   ("Ars Technica", "https://feeds.arstechnica.com/arstechnica/technology-lab")]

/-- `PRINTER_NAME`. -/
def PRINTER_NAME : String := "TS9500"

/-- `INTERVAL_MINUTES`. -/
def INTERVAL_MINUTES : Nat := 7

/-- `KEEP_PDF`. -/
def KEEP_PDF : Bool := false

/- ## Banner prepending in `main` (lines 158-170) -/

/-- The synthetic provenance entry built in `main`: the chosen source's
display name is interpolated into the title by an f-string, with no
escaping applied; `published` and `summary` are empty. -/
def bannerEntry (name : String) : NormalizedEntry :=
  { title := ("Feed Source: ") ++ name, published := (""), summary := ("") }

/-- Lines 159-170 of `main`: if `entries` is non-empty, prepend the banner
entry; otherwise the list becomes just the banner entry. -/
def prependBanner (name : String) (entries : List NormalizedEntry) :
    List NormalizedEntry :=
  if entries.isEmpty then [bannerEntry name] else bannerEntry name :: entries

/- ## Layout item construction in `save_as_pdf` (lines 125-137) -/

/-- The paragraph styles constructed in `save_as_pdf` (lines 89-117), plus
the sample-stylesheet `Normal` style used for the placeholder. -/
inductive Style where
  | feedTitle
  | feedDate
  | feedSummary
  | normal
deriving DecidableEq

/-- A renderable item appended to `item_list`: a styled `Paragraph` or a
`Spacer` with a width and height. -/
inductive LayoutItem where
  | para (text : String) (style : Style)
  | spacer (w h : Nat)
deriving DecidableEq

/-- The four items the loop body (lines 127-131) appends for one entry:
bold title paragraph, published-date paragraph, summary paragraph, and a
fixed `Spacer(1, 6)`. -/
def entryItems (e : NormalizedEntry) : List LayoutItem :=
  [LayoutItem.para (("<b>") ++ e.title ++ ("</b>")) Style.feedTitle,
   LayoutItem.para e.published Style.feedDate,
   LayoutItem.para e.summary Style.feedSummary,
   LayoutItem.spacer 1 6]

/-- The `item_list` accumulation loop (lines 126-131): starting from the
empty list, each entry appends its four items in order. -/
def buildItemList (entries : List NormalizedEntry) : List LayoutItem :=
  entries.foldl (fun acc e => acc ++ entryItems e) []

/-- Lines 132-133: if `item_list` is empty after the loop, append the
placeholder paragraph "No entries found." in the `Normal` style. -/
def finalItemList (entries : List NormalizedEntry) : List LayoutItem :=
  let l := buildItemList entries
  if l.isEmpty then [LayoutItem.para ("No entries found.") Style.normal] else l

/- ## Page geometry (lines 119-123) -/

/-- Page geometry: page size and the four margins, in points.  The script
fixes all margins to 18 and the page size to A4. -/
structure PageGeometry where
  pageWidth : Nat
  pageHeight : Nat
  leftMargin : Nat
  rightMargin : Nat
  topMargin : Nat
  bottomMargin : Nat
deriving DecidableEq

/-- `available_width = width - leftMargin - rightMargin` (line 122). -/
def availableWidth (g : PageGeometry) : Nat :=
  g.pageWidth - g.leftMargin - g.rightMargin

/-- `available_height = height - topMargin - bottomMargin` (line 123). -/
def availableHeight (g : PageGeometry) : Nat :=
  g.pageHeight - g.topMargin - g.bottomMargin

/-- The geometry used by the script: reportlab's A4 is 595.27 x 841.89 pt;
the model works in whole points, which only matters for concrete instances,
since every geometry theorem quantifies over all geometries. -/
def a4Geometry : PageGeometry :=
  { pageWidth := 595, pageHeight := 842, leftMargin := 18, rightMargin := 18,
    topMargin := 18, bottomMargin := 18 }

/- ## KeepInFrame truncation (line 136) -/

/-- Modelled from the spec: reportlab's `KeepInFrame(maxWidth, maxHeight,
item_list, mode='truncate')` is external library code, not part of this
repository.  Following spec section 4.4 step 3, it renders items in order
into the remaining vertical space: an item whose measured height fits is
rendered at full height, the first item that does not fit is clipped to the
remaining space, and everything after it is dropped.  `measure` abstracts
reportlab's height measurement of a single item. -/
def renderTruncate (measure : LayoutItem → Nat) :
    Nat → List LayoutItem → List (LayoutItem × Nat)
  | _, [] => []
  | remaining, i :: rest =>
    if remaining = 0 then []
    else if measure i ≤ remaining then
      (i, measure i) :: renderTruncate measure (remaining - measure i) rest
    else [(i, remaining)]

/-- Total rendered height of a rendered item list. -/
def renderedHeight (r : List (LayoutItem × Nat)) : Nat :=
  (r.map Prod.snd).sum

/-- The single-page document produced by `save_as_pdf`: its geometry and the
items actually rendered (each with its rendered height). -/
structure Document where
  geometry : PageGeometry
  renderedItems : List (LayoutItem × Nat)

/-- The layout content of `save_as_pdf` (lines 119-144): build `item_list`
from the entries, place it in a `KeepInFrame` over the available area, and
render the single page. -/
def layoutDocument (measure : LayoutItem → Nat) (g : PageGeometry)
    (entries : List NormalizedEntry) : Document :=
  { geometry := g,
    renderedItems := renderTruncate measure (availableHeight g) (finalItemList entries) }

/- ## Effectful stage results -/

/-- Every outcome of the document-building body of `save_as_pdf`'s `try`
block (style construction, file writing, `doc.build`): it either completed
or raised an exception. -/
inductive BuildOutcome where
  | ok
  | raised (msg : String)
deriving DecidableEq

/-- An outcome in which document building failed. -/
def isBuildError : BuildOutcome → Bool
  | .ok => false
  | .raised _ => true

/-- The result-and-logging behaviour of `save_as_pdf` (lines 84-149):
on success it returns the filename and prints a save message; the
`except` branch (lines 147-149) converts any exception to a stderr
diagnostic and the return value `None`. -/
def save_as_pdf (b : BuildOutcome) (filename : String) :
    Option String × List String :=
  match b with
  | .ok => (some filename, [("Saved PDF: ") ++ filename])
  | .raised m => (none, [("Failed to save PDF: ") ++ m])

/-- Every outcome of the `subprocess.run(["lpr", ...], check=True)` call
(line 77): clean exit, `CalledProcessError` for a non-zero exit code, or an
invocation failure such as `lpr` being absent. -/
inductive RunOutcome where
  | success
  | calledProcessError (code : Nat)
  | invocationError (msg : String)
deriving DecidableEq

/-- An outcome in which the print submission failed. -/
def isRunFailure : RunOutcome → Bool
  | .success => false
  | _ => true

/-- The text of the exception raised by a failed `subprocess.run`. -/
def runCauseMsg : RunOutcome → String
  | .success => ("")
  | .calledProcessError code =>
    ("Command lpr returned non-zero exit status ") ++ toString code
  | .invocationError m => m

/-- An error value describing a failed print submission.  The spec's
contract for the dispatcher says such a value is returned to the caller;
the model records what the function actually returns. -/
structure PrintError where
  cause : String
deriving DecidableEq

/-- Observable behaviour of one `print_to_printer` call: the value returned
to the caller, how many times the print command was invoked, and the
stdout/stderr lines printed. -/
structure PrintCallResult where
  ret : Option PrintError
  attempts : Nat
  stdoutLog : List String
  stderrLog : List String
deriving DecidableEq

/-- `print_to_printer(pdf_path, printer_name)` (lines 74-82): invokes `lpr`
exactly once; on success prints a confirmation; on any failure the `except`
branch prints a stderr diagnostic carrying the cause.  The Python function
has no `return` statement, so the value returned to the caller is `None`
on every path. -/
def print_to_printer (r : RunOutcome) (pdfPath printerName : String) :
    PrintCallResult :=
  match r with
  | .success =>
    { ret := none, attempts := 1,
      stdoutLog := [("Printed PDF ") ++ pdfPath ++ (" to ") ++ printerName
        ++ (" successfully.")],
      stderrLog := [] }
  | .calledProcessError code =>
    { ret := none, attempts := 1, stdoutLog := [],
      stderrLog := [("Printing failed: ")
        ++ runCauseMsg (RunOutcome.calledProcessError code)] }
  | .invocationError m =>
    { ret := none, attempts := 1, stdoutLog := [],
      stderrLog := [("Printing failed: ") ++ runCauseMsg (RunOutcome.invocationError m)] }

/-- The `os.remove` block in `main` (lines 176-180): success logs a deletion
message, a raised exception is caught and logged; `removeRaises` carries
the exception text when deletion fails. -/
def removePdf (removeRaises : Option String) (path : String) :
    Bool × List String :=
  match removeRaises with
  | none => (true, [("Deleted PDF: ") ++ path])
  | some m => (false, [("Failed to delete PDF: ") ++ m])

/- ## One cycle of the scheduler loop (`main`, lines 153-182) -/

/-- All the external outcomes one cycle can encounter: the chosen source,
the parser outcome, the document-build outcome, the print-command outcome,
the deletion outcome, the retention flag and the generated filename. -/
structure CycleEnv where
  name : String
  url : String
  parse : ParseOutcome
  build : BuildOutcome
  runOutcome : RunOutcome
  removeRaises : Option String
  keepPdf : Bool
  filename : String

/-- Observable trace of one cycle: the entry sequence handed to layout,
whether printing was attempted, whether the file was deleted, and the
console lines. -/
structure CycleTrace where
  entriesLaidOut : List NormalizedEntry
  printAttempted : Bool
  deleted : Bool
  logs : List String

/-- One iteration of the `while True` loop in `main` (lines 153-182),
with an uncaught exception modelled as `Except.error`: fetch, normalize,
prepend the banner, save the PDF, and when a path was returned print it and
(unless `KEEP_PDF`) delete it. -/
def runCycle (env : CycleEnv) : Except String CycleTrace :=
  let fetched := fetch_feed env.parse
  let entries := format_entries fetched.1
  let withBanner := prependBanner env.name entries
  let saved := save_as_pdf env.build env.filename
  match saved.1 with
  | some p =>
    let pr := print_to_printer env.runOutcome p PRINTER_NAME
    let del := if env.keepPdf then (false, ([] : List String))
               else removePdf env.removeRaises p
    Except.ok
      { entriesLaidOut := withBanner, printAttempted := true, deleted := del.1,
        logs := fetched.2 ++ saved.2 ++ pr.stdoutLog ++ pr.stderrLog ++ del.2 }
  | none =>
    Except.ok
      { entriesLaidOut := withBanner, printAttempted := false, deleted := false,
        logs := fetched.2 ++ saved.2 }

/-- The scheduler loop run over a list of cycle environments: each scheduled
cycle runs in turn, and an uncaught exception in any cycle would abort the
whole loop via the `Except` monad. -/
def runLoop (envs : List CycleEnv) : Except String (List CycleTrace) :=
  envs.mapM runCycle

/- ## Helper lemmas about the item list and the truncating renderer -/

theorem foldl_entryItems (entries : List NormalizedEntry) :
    ∀ acc : List LayoutItem,
      entries.foldl (fun a e => a ++ entryItems e) acc
        = acc ++ entries.flatMap entryItems := by
  induction entries with
  | nil => intro acc; simp
  | cons e rest ih =>
    intro acc
    simp only [List.foldl_cons, List.flatMap_cons]
    rw [ih (acc ++ entryItems e)]
    simp [List.append_assoc]

theorem buildItemList_eq_flatMap (entries : List NormalizedEntry) :
    buildItemList entries = entries.flatMap entryItems := by
  rw [buildItemList, foldl_entryItems]
  simp

theorem flatMap_entryItems_length (entries : List NormalizedEntry) :
    (entries.flatMap entryItems).length = 4 * entries.length := by
  induction entries with
  | nil => simp
  | cons e rest ih =>
    simp only [List.flatMap_cons, List.length_append, List.length_cons, ih]
    show (entryItems e).length + 4 * rest.length = 4 * (rest.length + 1)
    simp [entryItems]
    omega

theorem finalItemList_of_ne_nil (entries : List NormalizedEntry)
    (h : entries ≠ []) :
    finalItemList entries = entries.flatMap entryItems := by
  have hne : buildItemList entries ≠ [] := by
    rw [buildItemList_eq_flatMap]
    intro hnil
    have hlen := flatMap_entryItems_length entries
    rw [hnil] at hlen
    cases entries with
    | nil => exact h rfl
    | cons e rest => simp at hlen
  have hempty : (buildItemList entries).isEmpty = false := by
    cases hb : buildItemList entries with
    | nil => exact absurd hb hne
    | cons i rest => rfl
  rw [finalItemList]
  simp only [hempty]
  rw [if_neg (by simp)]
  exact buildItemList_eq_flatMap entries

theorem renderTruncate_height_le (measure : LayoutItem → Nat) :
    ∀ (items : List LayoutItem) (remaining : Nat),
      renderedHeight (renderTruncate measure remaining items) ≤ remaining := by
  intro items
  induction items with
  | nil =>
    intro remaining
    simp [renderTruncate, renderedHeight]
  | cons i rest ih =>
    intro remaining
    by_cases h0 : remaining = 0
    · simp [renderTruncate, h0, renderedHeight]
    · by_cases hm : measure i ≤ remaining
      · have hrec := ih (remaining - measure i)
        simp only [renderTruncate, if_neg h0, if_pos hm, renderedHeight,
          List.map_cons, List.sum_cons] at hrec ⊢
        omega
      · simp [renderTruncate, if_neg h0, if_neg hm, renderedHeight]

theorem renderTruncate_prefix (measure : LayoutItem → Nat) :
    ∀ (items : List LayoutItem) (remaining : Nat),
      ∃ dropped, (renderTruncate measure remaining items).map Prod.fst ++ dropped
        = items := by
  intro items
  induction items with
  | nil =>
    intro remaining
    exact ⟨[], by simp [renderTruncate]⟩
  | cons i rest ih =>
    intro remaining
    by_cases h0 : remaining = 0
    · exact ⟨i :: rest, by simp [renderTruncate, h0]⟩
    · by_cases hm : measure i ≤ remaining
      · obtain ⟨t, ht⟩ := ih (remaining - measure i)
        refine ⟨t, ?_⟩
        simp only [renderTruncate, if_neg h0, if_pos hm, List.map_cons,
          List.cons_append]
        rw [ht]
      · exact ⟨rest, by simp [renderTruncate, if_neg h0, if_neg hm]⟩

theorem renderTruncate_ne_nil (measure : LayoutItem → Nat)
    (remaining : Nat) (items : List LayoutItem)
    (h0 : remaining ≠ 0) (hi : items ≠ []) :
    renderTruncate measure remaining items ≠ [] := by
  cases items with
  | nil => exact absurd rfl hi
  | cons i rest =>
    by_cases hm : measure i ≤ remaining
    · simp [renderTruncate, h0, hm]
    · simp [renderTruncate, h0, hm]

/- ## Concrete instances used in witnesses -/

/-- A concrete normalized entry. -/
def entryW : NormalizedEntry :=
  { title := "T1", published := "D1", summary := "S1" }

/-- A concrete height-measurement: 20 points per paragraph, a spacer's own
height for spacers. -/
def measureW : LayoutItem → Nat
  | .para _ _ => 20
  | .spacer _ h => h

/-- A concrete raw entry whose title carries markup and whose `published`
field is absent. -/
def rawW : RawEntry :=
  { title := some ("<script>x</script>"), published := none,
    summary := some ("<b>sum</b>") }

/-- A concrete well-formed feed. -/
def feedW : Feed :=
  { bozo := false, bozoException := "", hasEntries := true, entries := [rawW] }

/-- A concrete feed whose parser set the `bozo` error flag. -/
def bozoFeedW : Feed :=
  { bozo := true, bozoException := "not well-formed", hasEntries := true,
    entries := [] }

/-- A concrete cycle environment in which every stage succeeds. -/
def envOkW : CycleEnv :=
  { name := "Guardian World", url := "https://www.theguardian.com/world/rss",
    parse := ParseOutcome.parsed feedW, build := BuildOutcome.ok,
    runOutcome := RunOutcome.success, removeRaises := none, keepPdf := false,
    filename := "./rss_printout_20251012_120000.pdf" }

/-- A concrete cycle environment in which document building raises. -/
def envBadW : CycleEnv :=
  { envOkW with build := BuildOutcome.raised "disk full" }

/- ## Claim theorems -/

/-- C1: for every page geometry with positive available width and height and
every entry sequence of any length, the layout performed by `save_as_pdf`
produces a Document whose rendered content height never exceeds the available
height — content is truncated to fit the single page rather than overflowing,
scaling, or erroring (the renderer is a total function). -/
theorem save_as_pdf_single_page (measure : LayoutItem → Nat) (g : PageGeometry)
    (entries : List NormalizedEntry)
    (hw : 0 < availableWidth g) (hh : 0 < availableHeight g) :
    renderedHeight (layoutDocument measure g entries).renderedItems
      ≤ availableHeight g :=
  renderTruncate_height_le measure (finalItemList entries) (availableHeight g)

theorem save_as_pdf_single_page_witness :
    0 < availableWidth a4Geometry ∧ 0 < availableHeight a4Geometry ∧
    renderedHeight (layoutDocument measureW a4Geometry [entryW]).renderedItems
      ≤ availableHeight a4Geometry :=
  ⟨by decide, by decide,
   save_as_pdf_single_page measureW a4Geometry [entryW] (by decide) (by decide)⟩

/-- C2: when not every entry fits, truncation follows entry order — for any
geometry with positive available height, the rendered items of the Document
built from the banner entry followed by the real entries form a prefix of the
full banner-first item list (so the Document never contains an item
originating from a later entry while omitting an earlier one), and the page
is never zero-content. -/
theorem save_as_pdf_truncation_order (measure : LayoutItem → Nat)
    (g : PageGeometry) (banner : NormalizedEntry)
    (entries : List NormalizedEntry) (hh : 0 < availableHeight g) :
    (∃ dropped,
      (layoutDocument measure g (banner :: entries)).renderedItems.map Prod.fst
        ++ dropped = entryItems banner ++ entries.flatMap entryItems) ∧
    (layoutDocument measure g (banner :: entries)).renderedItems ≠ [] := by
  have hfin : finalItemList (banner :: entries)
      = entryItems banner ++ entries.flatMap entryItems := by
    rw [finalItemList_of_ne_nil (banner :: entries) (by simp)]
    simp [List.flatMap_cons]
  constructor
  · obtain ⟨t, ht⟩ := renderTruncate_prefix measure
      (finalItemList (banner :: entries)) (availableHeight g)
    refine ⟨t, ?_⟩
    show (renderTruncate measure (availableHeight g)
      (finalItemList (banner :: entries))).map Prod.fst ++ t = _
    rw [ht, hfin]
  · show renderTruncate measure (availableHeight g)
      (finalItemList (banner :: entries)) ≠ []
    apply renderTruncate_ne_nil measure (availableHeight g)
      (finalItemList (banner :: entries)) (by omega)
    rw [hfin]
    simp [entryItems]

theorem save_as_pdf_truncation_order_witness :
    0 < availableHeight a4Geometry ∧
    (layoutDocument measureW a4Geometry
      (bannerEntry "Guardian World" :: [entryW])).renderedItems ≠ [] :=
  ⟨by decide,
   (save_as_pdf_truncation_order measureW a4Geometry
     (bannerEntry "Guardian World") [entryW] (by decide)).2⟩

/-- C3: `format_entries` normalizes every raw entry in order, HTML-escaping
the `title` and `published` fields — so the normalized title and date contain
no unescaped markup-significant characters — while the `summary` field passes
through unmodified. -/
theorem format_entries_escaping (f : Feed) (h : f.hasEntries = true) :
    format_entries (some f) = f.entries.map normalizeRaw ∧
    ∀ raw : RawEntry,
      (normalizeRaw raw).title = htmlEscape (raw.title.getD "No title") ∧
      noUnescapedMarkup (normalizeRaw raw).title.data = true ∧
      (normalizeRaw raw).published = htmlEscape (raw.published.getD "No date") ∧
      noUnescapedMarkup (normalizeRaw raw).published.data = true ∧
      (normalizeRaw raw).summary = raw.summary.getD "" := by
  refine ⟨by simp [format_entries, h], fun raw => ⟨rfl, ?_, rfl, ?_, rfl⟩⟩
  · exact htmlEscape_noUnescapedMarkup _
  · exact htmlEscape_noUnescapedMarkup _

theorem format_entries_escaping_witness :
    feedW.hasEntries = true ∧
    format_entries (some feedW) = feedW.entries.map normalizeRaw ∧
    noUnescapedMarkup (normalizeRaw rawW).title.data = true :=
  ⟨rfl, (format_entries_escaping feedW rfl).1,
   ((format_entries_escaping feedW rfl).2 rawW).2.1⟩

/-- C4: for every non-empty entry sequence, the item list built by
`save_as_pdf` is exactly four layout items per entry — a bold title
paragraph, a published-date paragraph, a summary paragraph, and a fixed
`Spacer(1, 6)` — concatenated in strict input entry order with no reordering
and no deduplication. -/
theorem save_as_pdf_four_items_per_entry (entries : List NormalizedEntry)
    (h : entries ≠ []) :
    finalItemList entries = entries.flatMap entryItems ∧
    (finalItemList entries).length = 4 * entries.length ∧
    ∀ e : NormalizedEntry,
      entryItems e
        = [LayoutItem.para ("<b>" ++ e.title ++ "</b>") Style.feedTitle,
           LayoutItem.para e.published Style.feedDate,
           LayoutItem.para e.summary Style.feedSummary,
           LayoutItem.spacer 1 6] := by
  refine ⟨finalItemList_of_ne_nil entries h, ?_, fun e => rfl⟩
  rw [finalItemList_of_ne_nil entries h]
  exact flatMap_entryItems_length entries

theorem save_as_pdf_four_items_per_entry_witness :
    ([entryW] : List NormalizedEntry) ≠ [] ∧
    (finalItemList [entryW]).length = 4 * ([entryW] : List NormalizedEntry).length :=
  ⟨by simp, (save_as_pdf_four_items_per_entry [entryW] (by simp)).2.1⟩

/-- C5: given an empty entry sequence, `save_as_pdf` substitutes the single
placeholder paragraph "No entries found.", and the Document produced at the
script's geometry contains exactly that one item and nothing else, for every
height measurement. -/
theorem save_as_pdf_empty_placeholder :
    finalItemList [] = [LayoutItem.para "No entries found." Style.normal] ∧
    ∀ measure : LayoutItem → Nat,
      (layoutDocument measure a4Geometry []).renderedItems.map Prod.fst
        = [LayoutItem.para "No entries found." Style.normal] := by
  refine ⟨rfl, fun measure => ?_⟩
  show (renderTruncate measure (availableHeight a4Geometry)
    (finalItemList [])).map Prod.fst = _
  have hfin : finalItemList []
      = [LayoutItem.para "No entries found." Style.normal] := rfl
  have hh : availableHeight a4Geometry = 806 := rfl
  rw [hfin, hh]
  by_cases hm : measure (LayoutItem.para "No entries found." Style.normal) ≤ 806
  · simp [renderTruncate, hm]
  · simp [renderTruncate, hm]

/-- C6: in every cycle, whether or not the fetch produced entries, the
sequence handed to layout is the synthetic banner entry — title
"Feed Source: {name}", empty published, empty summary — followed by the
normalized entries in their original order. -/
theorem main_prepends_banner (name : String) (entries : List NormalizedEntry) :
    prependBanner name entries = bannerEntry name :: entries ∧
    (bannerEntry name).title = "Feed Source: " ++ name ∧
    (bannerEntry name).published = "" ∧
    (bannerEntry name).summary = "" := by
  refine ⟨?_, rfl, rfl, rfl⟩
  cases entries with
  | nil => rfl
  | cons e rest => rfl

/-- C7: `fetch_feed` converts every fetch or parse error — a raised
exception or the parser's `bozo` error flag — into the failure value `None`
together with a logged diagnostic (it is a total function, so nothing
propagates to the caller), and `format_entries` then maps that `None` to the
empty entry sequence, so the cycle proceeds instead of aborting. -/
theorem fetch_feed_error_handling (o : ParseOutcome)
    (h : isFetchError o = true) :
    (fetch_feed o).1 = none ∧ (fetch_feed o).2 ≠ [] ∧
    format_entries (fetch_feed o).1 = [] := by
  cases o with
  | raised m => exact ⟨rfl, by simp [fetch_feed], rfl⟩
  | parsed f =>
    have hb : f.bozo = true := h
    refine ⟨?_, ?_, ?_⟩ <;> simp [fetch_feed, hb, format_entries]

theorem fetch_feed_error_handling_witness :
    isFetchError (ParseOutcome.parsed bozoFeedW) = true ∧
    (fetch_feed (ParseOutcome.parsed bozoFeedW)).1 = none ∧
    format_entries (fetch_feed (ParseOutcome.parsed bozoFeedW)).1 = [] :=
  ⟨rfl, (fetch_feed_error_handling (ParseOutcome.parsed bozoFeedW) rfl).1,
   (fetch_feed_error_handling (ParseOutcome.parsed bozoFeedW) rfl).2.2⟩

/-- C8 counterexample: at the concrete non-zero-exit outcome
`CalledProcessError 1`, `print_to_printer` does not return a `PrintError`
result to its caller — the Python function has no `return` statement, so the
caller receives `None`, refuting the claim that a `PrintError` carrying the
cause is returned. -/
theorem print_to_printer_returns_no_error_cex :
    ¬ ∃ e : PrintError,
      (print_to_printer (RunOutcome.calledProcessError 1) "f.pdf" "TS9500").ret
        = some e := by
  rintro ⟨e, he⟩
  simp [print_to_printer] at he

/-- C8 (amended): on non-zero exit or invocation failure, `print_to_printer`
logs a stderr diagnostic carrying the underlying cause, invokes the print
command exactly once (no retry), and returns `None` to its caller — no
`PrintError` value reaches the caller. -/
theorem print_to_printer_failure_behaviour (r : RunOutcome)
    (path printer : String) (h : isRunFailure r = true) :
    (print_to_printer r path printer).ret = none ∧
    (print_to_printer r path printer).attempts = 1 ∧
    (print_to_printer r path printer).stdoutLog = [] ∧
    (print_to_printer r path printer).stderrLog
      = ["Printing failed: " ++ runCauseMsg r] := by
  cases r with
  | success => simp [isRunFailure] at h
  | calledProcessError code => exact ⟨rfl, rfl, rfl, rfl⟩
  | invocationError m => exact ⟨rfl, rfl, rfl, rfl⟩

theorem print_to_printer_failure_behaviour_witness :
    isRunFailure (RunOutcome.invocationError "lpr not found") = true ∧
    (print_to_printer (RunOutcome.invocationError "lpr not found") "a.pdf"
      PRINTER_NAME).ret = none ∧
    (print_to_printer (RunOutcome.invocationError "lpr not found") "a.pdf"
      PRINTER_NAME).attempts = 1 :=
  ⟨rfl,
   (print_to_printer_failure_behaviour (RunOutcome.invocationError "lpr not found")
     "a.pdf" PRINTER_NAME rfl).1,
   (print_to_printer_failure_behaviour (RunOutcome.invocationError "lpr not found")
     "a.pdf" PRINTER_NAME rfl).2.1⟩

/-- C9: every cycle of the scheduler loop completes without an uncaught
exception (each stage's failures are caught at its boundary), a cycle whose
document build raised skips printing for that iteration, and the loop runs
every scheduled cycle regardless of the outcomes. -/
theorem scheduler_loop_never_crashes :
    (∀ env : CycleEnv, ∃ t : CycleTrace, runCycle env = Except.ok t) ∧
    (∀ env : CycleEnv, isBuildError env.build = true →
      ∃ t : CycleTrace, runCycle env = Except.ok t ∧ t.printAttempted = false) ∧
    (∀ envs : List CycleEnv, ∃ ts : List CycleTrace,
      runLoop envs = Except.ok ts ∧ ts.length = envs.length) := by
  have hcycle : ∀ env : CycleEnv, ∃ t : CycleTrace, runCycle env = Except.ok t := by
    intro env
    obtain ⟨name, url, parse, build, runO, rem, keep, fn⟩ := env
    cases build with
    | ok => exact ⟨_, rfl⟩
    | raised m => exact ⟨_, rfl⟩
  refine ⟨hcycle, ?_, ?_⟩
  · intro env h
    obtain ⟨name, url, parse, build, runO, rem, keep, fn⟩ := env
    cases build with
    | ok => simp [isBuildError] at h
    | raised m => exact ⟨_, rfl, rfl⟩
  · intro envs
    induction envs with
    | nil => exact ⟨[], rfl, rfl⟩
    | cons e rest ih =>
      obtain ⟨t, ht⟩ := hcycle e
      obtain ⟨ts, hts, hlen⟩ := ih
      refine ⟨t :: ts, ?_, by simp [hlen]⟩
      show (e :: rest).mapM runCycle = Except.ok (t :: ts)
      rw [List.mapM_cons, ht]
      show (runLoop rest).bind _ = _
      rw [hts]
      rfl

theorem scheduler_loop_never_crashes_witness :
    (∃ t : CycleTrace, runCycle envOkW = Except.ok t) ∧
    isBuildError envBadW.build = true ∧
    (∃ t : CycleTrace, runCycle envBadW = Except.ok t ∧ t.printAttempted = false) :=
  ⟨scheduler_loop_never_crashes.1 envOkW, rfl,
   scheduler_loop_never_crashes.2.1 envBadW rfl⟩

/-- C10: the banner title is built by direct string interpolation of the
chosen source's display name with no HTML-escaping, so a display name
carrying markup reaches the layout engine as raw markup — witnessed by a
markup-bearing name whose banner title fails the no-unescaped-markup scan —
unlike the normalized entries, whose title and published fields always pass
it. -/
theorem banner_title_not_escaped :
    (∀ name : String, (bannerEntry name).title = "Feed Source: " ++ name) ∧
    noUnescapedMarkup (bannerEntry "<b>Evil</b>").title.data = false ∧
    (∀ raw : RawEntry,
      noUnescapedMarkup (normalizeRaw raw).title.data = true ∧
      noUnescapedMarkup (normalizeRaw raw).published.data = true) := by
  refine ⟨fun name => rfl, by decide, fun raw =>
    ⟨htmlEscape_noUnescapedMarkup _, htmlEscape_noUnescapedMarkup _⟩⟩
